import Mathlib

/-!
Shallow embedding of `src/index.ts` of apollo-engine-js: the sidecar
process supervisor (`Engine`).  The embedding has three parts:

* a model of configuration assembly performed by the `Engine` constructor
  (lines 126-225 of the source), tracking both the engine's view and the
  caller's view of the document, since `Object.assign({}, source)` is a
  shallow copy and nested structures stay shared;
* a model of the per-spawn log-level hack closure of `spawnChild`
  (lines 233-295): the captured `logLevel`, the `logLevelFilter`, the
  mutation of `this.engineConfig.logging.level`, and the levels of the
  configuration documents written to the current child's stdin;
* an event-step state machine for the supervisor lifecycle
  (`start`/readiness/exit/timeout/`stop`, lines 227-342 and 364-377),
  over which reachability invariants are proved.
-/

namespace ApolloEngine

/-! ## Configuration data model (source lines 21-113) -/

structure ExtensionsConfig where
  strip : Option (List String) := none
  blacklist : Option (List String) := none
deriving DecidableEq, Repr

/-- All configuration of a frontend, `FrontendConfig` in the source:
user-settable `extensions` plus the managed `host`, `endpoint`, `port`. -/
structure FrontendConfig where
  extensions : Option ExtensionsConfig := none
  host : String
  endpoint : String
  port : Nat
deriving DecidableEq, Repr

/-- The `http` transport block of an origin. -/
structure OriginHttp where
  url : String
  headerSecret : String
deriving DecidableEq, Repr

/-- User-configurable fields of an origin, `OriginParams` in the source. -/
structure OriginParams where
  requestTimeout : Option String := none
  maxConcurrentRequests : Option Nat := none
  supportsBatch : Option Bool := none
deriving DecidableEq, Repr

/-- An origin descriptor, `OriginConfig` in the source.  `http` is `Option`
because the constructor guards on `typeof origin.http === 'object'` at
runtime (source line 186). -/
structure OriginConfig extends OriginParams where
  http : Option OriginHttp := none
deriving DecidableEq, Repr

/-- The `logging` block of `EngineConfig` (fields the core touches). -/
structure LoggingConfig where
  level : Option String := none
  format : Option String := none
  destination : Option String := none
deriving DecidableEq, Repr

/-- The configuration document, `EngineConfig` in the source, restricted to
the fields the supervisor core reads or writes. -/
structure EngineConfig where
  apiKey : String := ""
  origins : Option (List OriginConfig) := none
  frontends : Option (List FrontendConfig) := none
  logging : Option LoggingConfig := none
deriving DecidableEq, Repr

/-! ## Constructor: configuration assembly (source lines 126-225)

`this.engineConfig = Object.assign({}, sourceConfig)` copies only the top
level of the document: the `frontends` array, each origin object and the
`logging` object stay shared between `this.engineConfig` and the caller's
document.  `assembleConfig` therefore returns both views: `engine` is
`this.engineConfig` after the constructor ran, `caller` is the caller's
document after the constructor ran (reflecting mutations through the
shared references: `frontends.push`, `Object.assign(origin.http, ...)`,
and the writes to `logging.format` / `logging.destination`). -/

/-- Both observable views of the configuration after construction. -/
structure CtorView where
  engine : EngineConfig
  caller : EngineConfig
deriving DecidableEq, Repr

/-- The synthetic frontend injected at source lines 163-167:
`Object.assign({}, this.frontendParams, { host: '127.0.0.1', endpoint, port: 0 })`. -/
def mkFrontend (endpoint : String) (ext : Option ExtensionsConfig) : FrontendConfig :=
  { extensions := ext, host := "127.0.0.1", endpoint := endpoint, port := 0 }

/-- The mutation of one user-supplied origin at source lines 185-191:
if `origin.http` is an object, `Object.assign(origin.http, { headerSecret: psk })`;
otherwise the origin is left alone. -/
def setOriginSecret (psk : String) (o : OriginConfig) : OriginConfig :=
  match o.http with
  | some h => { o with http := some { h with headerSecret := psk } }
  | none => o

/-- The synthetic origin built at source lines 175-180:
`Object.assign({}, this.originParams, { http: { url, headerSecret: psk } })`. -/
def mkOrigin (graphqlPort : Nat) (endpoint psk : String) (op : OriginParams) : OriginConfig :=
  { requestTimeout := op.requestTimeout,
    maxConcurrentRequests := op.maxConcurrentRequests,
    supportsBatch := op.supportsBatch,
    http := some { url := "http://127.0.0.1:" ++ toString graphqlPort ++ endpoint,
                   headerSecret := psk } }

/-- Configuration assembly of the `Engine` constructor, source lines
136-206, producing both the engine's and the caller's view of the
document.  Where the constructor rebinds a field of `this.engineConfig`
to a fresh object (the `undefined` branches) the caller's view keeps its
old (absent) field; where it mutates a shared structure in place, both
views change. -/
def assembleConfig (source : EngineConfig) (endpoint psk : String)
    (graphqlPort : Nat) (op : OriginParams) (fe : Option ExtensionsConfig) :
    CtorView :=
  let frontend := mkFrontend endpoint fe
  let fPair : Option (List FrontendConfig) × Option (List FrontendConfig) :=
    match source.frontends with
    | none => (some [frontend], none)
    | some fs => (some (fs ++ [frontend]), some (fs ++ [frontend]))
  let oPair : Option (List OriginConfig) × Option (List OriginConfig) :=
    match source.origins with
    | none => (some [mkOrigin graphqlPort endpoint psk op], none)
    | some os => (some (os.map (setOriginSecret psk)), some (os.map (setOriginSecret psk)))
  let lPair : Option LoggingConfig × Option LoggingConfig :=
    match source.logging with
    | none => (some { level := none, format := some "JSON", destination := some "STDOUT" }, none)
    | some lg => (some { lg with format := some "JSON", destination := some "STDOUT" },
                  some { lg with format := some "JSON", destination := some "STDOUT" })
  { engine := { source with frontends := fPair.1, origins := oPair.1, logging := lPair.1 },
    caller := { source with frontends := fPair.2, origins := oPair.2, logging := lPair.2 } }

/-! ## The log-level hack closure of `spawnChild` (source lines 233-295) -/

/-- The three possible values of the `logLevelFilter` regular expression
(source lines 241, 244, 247). -/
inductive LevelFilter
  | warnF
  | errF
  | fatalF
deriving DecidableEq, Repr

/-- Case-insensitive comparison of one character of the scrutinee against
one lowercase pattern character, as the `/i` regex flag does. -/
def ciChar (c p : Char) : Bool :=
  c == p || c.toNat == p.toNat - 32

/-- Case-insensitive full-anchor match of a character list against a
lowercase pattern, modelling `str.match(/^pat$/i)`. -/
def ciList : List Char → List Char → Bool
  | [], [] => true
  | c :: cs, p :: ps => ciChar c p && ciList cs ps
  | _, _ => false

/-- Model of `logLevel.match(/^warn(ing)?$/i)` (source line 239). -/
def matchWarn (s : String) : Bool :=
  ciList s.toList "warn".toList || ciList s.toList "warning".toList

/-- Model of `logLevel.match(/^error$/i)` (source line 242). -/
def matchError (s : String) : Bool :=
  ciList s.toList "error".toList

/-- Model of `logLevel.match(/^fatal$/i)` (source line 245). -/
def matchFatal (s : String) : Bool :=
  ciList s.toList "fatal".toList

/-- Whether `spawnChild` downgrades the given `logging.level` and installs
a filter (any of the three branches at source lines 239-248 taken). -/
def hackApplies : Option String → Bool
  | some l => matchWarn l || matchError l || matchFatal l
  | none => false

/-- Model of `logRecord.level.match(logLevelFilter)` (source line 281):
the filter regexes carry no `/i` flag, so matching is case-sensitive. -/
def filterMatches : LevelFilter → String → Bool
  | .warnF, s => s == "warn" || s == "warning" || s == "error" || s == "fatal"
  | .errF, s => s == "error" || s == "fatal"
  | .fatalF, s => s == "fatal"

/-- The forwarding decision of source line 281: a record is forwarded to
the diagnostic sink iff the filter is inactive, or the record has no
`level` field, or its level matches the filter. -/
def forwards (filter : Option LevelFilter) (recLevel : Option String) : Bool :=
  match filter with
  | none => true
  | some f =>
    match recLevel with
    | none => true
    | some l => filterMatches f l

/-- State of one `spawnChild` activation: `engineLevel` is the shared
mutable `this.engineConfig.logging.level`; `captured` is the closure
variable `logLevel` read at spawn time (line 237); `filter` is the closure
variable `logLevelFilter`; `graceArmed` records a pending 1-second
`setTimeout` from line 274; `docs` lists, in order, the `logging.level`
values serialized into the configuration documents written to the current
child's stdin (lines 250/295 and 270-271). -/
structure HackState where
  engineLevel : Option String
  captured : Option String
  filter : Option LevelFilter
  graceArmed : Bool
  docs : List (Option String)
deriving DecidableEq, Repr

/-- The body of `spawnChild` up to the first stdin write (source lines
236-250 and 295), as a function of the current
`this.engineConfig.logging.level`.  Note the branches mutate
`this.engineConfig.logging.level` itself to `'info'`; the serialized
document carries the post-mutation level. -/
def doSpawn (engineLevel : Option String) : HackState :=
  match engineLevel with
  | some l =>
    if matchWarn l then
      { engineLevel := some "info", captured := some l, filter := some .warnF,
        graceArmed := false, docs := [some "info"] }
    else if matchError l then
      { engineLevel := some "info", captured := some l, filter := some .errF,
        graceArmed := false, docs := [some "info"] }
    else if matchFatal l then
      { engineLevel := some "info", captured := some l, filter := some .fatalF,
        graceArmed := false, docs := [some "info"] }
    else
      { engineLevel := some l, captured := some l, filter := none,
        graceArmed := false, docs := [some l] }
  | none =>
    { engineLevel := none, captured := none, filter := none,
      graceArmed := false, docs := [none] }

/-- The readiness branch of the log-record handler (source lines 266-277):
if the level was hacked (`logLevelFilter` truthy), restore
`this.engineConfig.logging.level` to the captured `logLevel`, re-serialize
and write a second document, and arm the 1-second grace timer that will
clear the filter. -/
def doReadiness (s : HackState) : HackState :=
  match s.filter with
  | some _ =>
    { s with engineLevel := s.captured, docs := s.docs ++ [s.captured], graceArmed := true }
  | none => s

/-- The grace timer firing (source lines 274-276): `logLevelFilter = null`. -/
def doGraceFire (s : HackState) : HackState :=
  if s.graceArmed then { s with filter := none, graceArmed := false } else s

/-- A crash-triggered respawn (source line 317): the exit handler calls
`spawnChild()` again, which re-reads the *current* (possibly mutated)
`this.engineConfig.logging.level`. -/
def doCrashRespawn (s : HackState) : HackState :=
  doSpawn s.engineLevel

/-! ## Supervisor lifecycle state machine (source lines 227-342, 364-377) -/

/-- Outcome stored in the one-shot promise returned by `start()`:
resolution with the parsed port (line 339), rejection with the startup
timeout error (line 330), or rejection with `'unknown url'` (line 337). -/
inductive StartOutcome
  | port (n : Nat)
  | timedOut
  | unknownUrl
deriving DecidableEq, Repr

/-- The three observable states of the field `this.child`.  The
constructor never initializes it (source line 116 only declares
`private child: ChildProcess | null`), so before the first spawn it is
`undefined`, which is distinct from `null`: the `stop()` guard
`this.child === null` (line 365) fires only on `null`. -/
inductive ChildRef
  | undef
  | null
  | proc (g : Nat)
deriving DecidableEq, Repr

/-- Supervisor state.  `childField` is `this.child`; `live` is the set of
operating-system child processes that have not yet exited (a process
survives its `kill` signal until its `exit` event); `ready` records which
live generations have emitted the readiness sentinel; `uri` is
`this.middlewareParams.uri`; `promise` is the one-shot `start()` promise
(`none` while pending); `errorEvents` counts `'error'` emissions (line
307); `kills` records signals sent (lines 327, 375); `stopWaiting` is the
generation whose exit will resolve the pending `stop()` promise;
`nextId` numbers spawns, so it counts processes ever spawned. -/
structure EngineSt where
  running : Bool
  childField : ChildRef
  nextId : Nat
  live : List Nat
  ready : List Nat
  uri : String
  promise : Option StartOutcome
  timeoutArmed : Bool
  errorEvents : Nat
  kills : List (Nat × String)
  stopWaiting : Option Nat
  stopResolved : Bool
deriving DecidableEq, Repr

/-- The state of a freshly constructed `Engine` (source lines 126-143):
not running, `this.child` still undefined (the constructor never assigns
it), empty `uri`. -/
def engineInit : EngineSt :=
  { running := false, childField := .undef, nextId := 0, live := [], ready := [],
    uri := "", promise := none, timeoutArmed := false, errorEvents := 0,
    kills := [], stopWaiting := none, stopResolved := false }

/-- Model of `url.parse(uri).port` followed by `parseInt(port, 10)`
(source lines 335-339) for a `http://host:port` URI: the digit suffix
after the last colon of the authority, absent when there is no colon or
the suffix is empty or not numeric. -/
def urlPort (uri : String) : Option Nat :=
  match uri.toList with
  | 'h' :: 't' :: 't' :: 'p' :: ':' :: '/' :: '/' :: rest =>
    let auth := rest.takeWhile (fun c => c ≠ '/')
    if auth.contains ':' then
      let portChars := (auth.reverse.takeWhile (fun c => c ≠ ':')).reverse
      if !portChars.isEmpty && portChars.all Char.isDigit then
        some (portChars.foldl (fun n c => n * 10 + (c.toNat - 48)) 0)
      else none
    else none
  | _ => none

/-- Model of `start()`'s synchronous prefix (source lines 227-231, 252-253,
321-331): throw if already running, else set `running`, spawn generation
`nextId`, and arm the startup timer.  The spawned process is appended to
`live`; `this.child` points at it. -/
def startFn (s : EngineSt) : Except String EngineSt :=
  if s.running then .error "Only call start() on an engine object once"
  else .ok { s with
    running := true,
    childField := .proc s.nextId,
    live := s.nextId :: s.live,
    nextId := s.nextId + 1,
    timeoutArmed := true,
    promise := none }

/-- Outcome of a `stop()` call: the synchronous throw of
`'No engine instance running...'` (line 366); the never-started path,
where `this.child` is `undefined`, the `=== null` guard does not fire,
`this.child = null` and `this.running = false` are executed, and the
promise executor's `childRef.on('exit', ...)` on `undefined` throws a
TypeError that rejects the returned promise before any signal is sent;
or the normal stopping path. -/
inductive StopRes
  | throwNotRunning
  | rejectTypeError (next : EngineSt)
  | stopping (next : EngineSt)
deriving DecidableEq, Repr

/-- Model of `stop()` (source lines 364-377).  The guard
`this.child === null` fires only on `null`: a never-started engine has
`this.child === undefined`, skips the guard, mutates `this.child`/`running`
and rejects with a TypeError (no `kill` is sent, no exit listener is
installed).  With a process handle, `stop()` clears `this.child`, clears
`running`, sends the default termination signal, and installs a promise
resolved by that child's exit. -/
def stopFn (s : EngineSt) : StopRes :=
  match s.childField with
  | .null => .throwNotRunning
  | .undef => .rejectTypeError { s with childField := .null, running := false }
  | .proc g => .stopping { s with
    childField := .null,
    running := false,
    kills := s.kills ++ [(g, "SIGTERM")],
    stopWaiting := some g,
    stopResolved := false }

/-- Events delivered to the supervisor: a `start()` call, a decoded log
record carrying the readiness sentinel from a live child, another log
record, a child `exit` event, the startup timer firing, a `stop()` call. -/
inductive Ev
  | startCall
  | readiness (g : Nat) (address : String)
  | logOther (g : Nat)
  | childExit (g : Nat) (code : Option Int) (signal : Option String)
  | timeoutFire
  | stopCall
deriving DecidableEq, Repr

/-- One supervisor step.  The `readiness` case is the sentinel branch of
the log-record handler (lines 259-265) followed by the `'start'` listener
(lines 333-340); `childExit` is the exit handler (lines 298-318) plus the
`stop()` promise's own exit listener (line 372); `timeoutFire` is the
startup-timeout callback (lines 324-331).  A settled promise ignores
later `resolve`/`reject` calls. -/
def step (e : Ev) (s : EngineSt) : EngineSt :=
  match e with
  | .startCall =>
    match startFn s with
    | .ok s' => s'
    | .error _ => s
  | .readiness g address =>
    let s1 := { s with uri := "http://" ++ address, ready := g :: s.ready,
                       timeoutArmed := false }
    match s1.promise with
    | some _ => s1
    | none =>
      { s1 with promise := some (match urlPort s1.uri with
          | some n => .port n
          | none => .unknownUrl) }
  | .logOther _ => s
  | .childExit g code _signal =>
    let s1 := { s with live := s.live.erase g, ready := s.ready.erase g, uri := "",
                       stopResolved := s.stopResolved || s.stopWaiting == some g }
    if s1.running = false then s1
    else if code = some 78 then { s1 with errorEvents := s1.errorEvents + 1 }
    else { s1 with childField := .proc s1.nextId, live := s1.nextId :: s1.live,
                   nextId := s1.nextId + 1 }
  | .timeoutFire =>
    if s.timeoutArmed then
      let s1 := { s with timeoutArmed := false, running := false,
                         kills := s.kills ++ (match s.childField with
                           | .proc g => [(g, "SIGKILL")]
                           | _ => []),
                         childField := match s.childField with
                           | .proc _ => ChildRef.null
                           | c => c }
      match s1.promise with
      | some _ => s1
      | none => { s1 with promise := some .timedOut }
    else s
  | .stopCall =>
    match stopFn s with
    | .throwNotRunning => s
    | .rejectTypeError s' => s'
    | .stopping s' => s'

/-- Feasibility of an event in a state: a process only emits log records
or an `exit` event while it is alive. -/
def evValid (s : EngineSt) : Ev → Prop
  | .readiness g _ => g ∈ s.live
  | .logOther g => g ∈ s.live
  | .childExit g _ _ => g ∈ s.live
  | _ => True

/-- States reachable from a freshly constructed `Engine` by feasible
events. -/
inductive Reachable : EngineSt → Prop
  | init : Reachable engineInit
  | next {s : EngineSt} {e : Ev} : Reachable s → evValid s e → Reachable (step e s)

/-- A sample state with one running, live child of generation 0, as after
`start()` and before readiness. -/
def sRunning : EngineSt :=
  { engineInit with running := true, childField := .proc 0, live := [0], nextId := 1,
                    timeoutArmed := true }

/-- A sample user-supplied origin list: one origin with an `http`
transport and a caller-chosen secret. -/
def sampleOrigins : List OriginConfig :=
  [{ requestTimeout := none, maxConcurrentRequests := none, supportsBatch := none,
     http := some { url := "http://127.0.0.1:4000/graphql",
                    headerSecret := "user-secret" } }]

/-- A sample user-supplied configuration document carrying its own origin
(with an `http` transport and a caller-chosen secret), its own frontend,
and a `logging` block requesting level `error`. -/
def sampleSrc : EngineConfig :=
  { apiKey := "k",
    origins := some sampleOrigins,
    frontends := some [{ extensions := none, host := "example.com",
                         endpoint := "/e", port := 8080 }],
    logging := some { level := some "error", format := none, destination := none } }

/-! ## Theorems -/

/-- C1, counterexample.  The claim says every crash respawn regenerates
the outgoing document from the unmodified base configuration (here base
level `error`) with a fresh application of the level hack, regardless of
whether the crash happened before or after readiness.  But a crash before
readiness respawns from the already-mutated `this.engineConfig`
(`logging.level = "info"`): the replacement spawn installs no filter
(a fresh hack on `error` would install the error filter), and after the
replacement's readiness no second document restoring `error` is ever
written — the document history stays `[info]` instead of `[info, error]`. -/
theorem C1_respawn_counterexample :
    doCrashRespawn (doSpawn (some "error")) ≠ doSpawn (some "error") ∧
    (doCrashRespawn (doSpawn (some "error"))).filter = none ∧
    (doSpawn (some "error")).filter = some .errF ∧
    (doReadiness (doCrashRespawn (doSpawn (some "error")))).docs = [some "info"] ∧
    (doReadiness (doSpawn (some "error"))).docs = [some "info", some "error"] := by
  decide

/-- C1 (amended): a crash respawn regenerates the outgoing document from
the configuration state as mutated by the level hack, not from the
unmodified base.  When the crash occurs after the readiness record
restored the level, the respawn coincides with a fresh spawn from the base
configuration; when the crash occurs before readiness (and the hack had
been applied), the respawn is generated from the mutated copy: it carries
level `info`, installs no filter, and its readiness writes no restoring
second document, losing the originally requested level. -/
theorem C1_respawn_regeneration (b : Option String) :
    ((doReadiness (doSpawn b)).engineLevel = b ∧
     doCrashRespawn (doReadiness (doSpawn b)) = doSpawn b) ∧
    (hackApplies b = true →
      (doSpawn b).engineLevel = some "info" ∧
      (doCrashRespawn (doSpawn b)).filter = none ∧
      (doCrashRespawn (doSpawn b)).engineLevel = some "info" ∧
      (doCrashRespawn (doSpawn b)).docs = [some "info"] ∧
      doReadiness (doCrashRespawn (doSpawn b)) = doCrashRespawn (doSpawn b)) := by
  have h1 : matchWarn "info" = false := by decide
  have h2 : matchError "info" = false := by decide
  have h3 : matchFatal "info" = false := by decide
  cases b with
  | none =>
    refine ⟨⟨rfl, rfl⟩, ?_⟩
    intro h
    simp [hackApplies] at h
  | some l =>
    by_cases hw : matchWarn l
    · simp [doSpawn, hw, doReadiness, doCrashRespawn, hackApplies, h1, h2, h3]
    · by_cases he : matchError l
      · simp [doSpawn, hw, he, doReadiness, doCrashRespawn, hackApplies, h1, h2, h3]
      · by_cases hf : matchFatal l
        · simp [doSpawn, hw, he, hf, doReadiness, doCrashRespawn, hackApplies, h1, h2, h3]
        · simp [doSpawn, hw, he, hf, doReadiness, doCrashRespawn, hackApplies]

/-- C1, witness for the amended theorem at base level `error`. -/
theorem C1_respawn_regeneration_witness :
    doCrashRespawn (doReadiness (doSpawn (some "error"))) = doSpawn (some "error") ∧
    (doCrashRespawn (doSpawn (some "error"))).docs = [some "info"] :=
  ⟨(C1_respawn_regeneration (some "error")).1.2,
   ((C1_respawn_regeneration (some "error")).2 (by decide)).2.2.2.1⟩

/-- C2: for requested level `error`, the first document written to the
child carries level `info`; on readiness a second document carrying
`error` is written; records at level `info`/`debug`/`warn` are suppressed
from diagnostic forwarding from spawn until the grace timer (armed for 1
second at readiness) fires, and forwarded afterwards, while `error` and
`fatal` records (and records without a level) are always forwarded; and
analogously for requested levels `warn` and `fatal`. -/
theorem C2_level_hack_error :
    (doSpawn (some "error")).docs = [some "info"] ∧
    (doReadiness (doSpawn (some "error"))).docs = [some "info", some "error"] ∧
    (doReadiness (doSpawn (some "error"))).graceArmed = true ∧
    (forwards (doSpawn (some "error")).filter (some "info") = false ∧
     forwards (doSpawn (some "error")).filter (some "debug") = false ∧
     forwards (doSpawn (some "error")).filter (some "warn") = false) ∧
    (forwards (doReadiness (doSpawn (some "error"))).filter (some "info") = false ∧
     forwards (doReadiness (doSpawn (some "error"))).filter (some "debug") = false ∧
     forwards (doReadiness (doSpawn (some "error"))).filter (some "warn") = false) ∧
    (forwards (doGraceFire (doReadiness (doSpawn (some "error")))).filter (some "info") = true ∧
     forwards (doGraceFire (doReadiness (doSpawn (some "error")))).filter (some "debug") = true ∧
     forwards (doGraceFire (doReadiness (doSpawn (some "error")))).filter (some "warn") = true) ∧
    (forwards (doSpawn (some "error")).filter (some "error") = true ∧
     forwards (doSpawn (some "error")).filter (some "fatal") = true ∧
     forwards (doSpawn (some "error")).filter none = true ∧
     forwards (doReadiness (doSpawn (some "error"))).filter (some "error") = true ∧
     forwards (doReadiness (doSpawn (some "error"))).filter (some "fatal") = true) ∧
    ((doSpawn (some "warn")).docs = [some "info"] ∧
     (doReadiness (doSpawn (some "warn"))).docs = [some "info", some "warn"] ∧
     forwards (doSpawn (some "warn")).filter (some "info") = false ∧
     forwards (doSpawn (some "warn")).filter (some "debug") = false ∧
     forwards (doSpawn (some "warn")).filter (some "warn") = true) ∧
    ((doSpawn (some "fatal")).docs = [some "info"] ∧
     (doReadiness (doSpawn (some "fatal"))).docs = [some "info", some "fatal"] ∧
     forwards (doSpawn (some "fatal")).filter (some "error") = false ∧
     forwards (doSpawn (some "fatal")).filter (some "fatal") = true) := by
  decide

/-- C7: if the user supplied no origins, the assembled document carries
exactly one synthetic origin whose URL is
`"http://127.0.0.1:" ++ graphqlPort ++ endpoint` and whose `headerSecret`
is the generated psk; if the user supplied origins, the assembled list has
the same length, every origin with an `http` transport has its
`headerSecret` overwritten with the psk (URL and other fields preserved),
and every origin without one is passed through unchanged. -/
theorem C7_origins_assembly (source : EngineConfig) (endpoint psk : String)
    (graphqlPort : Nat) (op : OriginParams) (fe : Option ExtensionsConfig) :
    (source.origins = none →
      (assembleConfig source endpoint psk graphqlPort op fe).engine.origins =
        some [{ requestTimeout := op.requestTimeout,
                maxConcurrentRequests := op.maxConcurrentRequests,
                supportsBatch := op.supportsBatch,
                http := some { url := "http://127.0.0.1:" ++ toString graphqlPort ++ endpoint,
                               headerSecret := psk } }]) ∧
    (∀ os : List OriginConfig, source.origins = some os →
      ∃ os' : List OriginConfig,
        (assembleConfig source endpoint psk graphqlPort op fe).engine.origins = some os' ∧
        os'.length = os.length ∧
        ∀ i : Nat, ∀ hi : i < os.length, ∀ hi' : i < os'.length,
          (os[i].http = none → os'[i] = os[i]) ∧
          (∀ h : OriginHttp, os[i].http = some h →
            os'[i] = { os[i] with http := some { h with headerSecret := psk } })) := by
  constructor
  · intro h
    simp [assembleConfig, h, mkOrigin]
  · intro os h
    refine ⟨os.map (setOriginSecret psk), by simp [assembleConfig, h], by simp, ?_⟩
    intro i hi hi'
    constructor
    · intro hn
      simp [List.getElem_map, setOriginSecret, hn]
    · intro hh hhh
      simp [List.getElem_map, setOriginSecret, hhh]

/-- C7, witness at a document without origins and at `sampleSrc` (one
HTTP origin). -/
theorem C7_origins_assembly_witness :
    ((assembleConfig { apiKey := "k" } "/graphql" "s0" 4000 {} none).engine.origins =
      some [{ requestTimeout := none, maxConcurrentRequests := none, supportsBatch := none,
              http := some { url := "http://127.0.0.1:" ++ toString 4000 ++ "/graphql",
                             headerSecret := "s0" } }]) ∧
    (∃ os' : List OriginConfig,
      (assembleConfig sampleSrc "/graphql" "s0" 4000 {} none).engine.origins = some os' ∧
      os'.length = 1) := by
  constructor
  · exact (C7_origins_assembly { apiKey := "k" } "/graphql" "s0" 4000 {} none).1 rfl
  · obtain ⟨os', h1, h2, _⟩ :=
      (C7_origins_assembly sampleSrc "/graphql" "s0" 4000 {} none).2 sampleOrigins rfl
    exact ⟨os', h1, by simp [h2, sampleOrigins]⟩

/-- C9, counterexample.  Construction does *not* leave the caller's
document unchanged: `Object.assign({}, source)` copies only the top
level, so `this.engineConfig.frontends.push(frontend)` appends the
synthetic frontend to the caller's own array, and
`Object.assign(origin.http, { headerSecret: psk })` overwrites the
caller's origin secret.  At `sampleSrc` the caller's frontends array
gains an element (length 2) and the caller's origin secret becomes the
generated psk. -/
theorem C9_purity_counterexample :
    (assembleConfig sampleSrc "/graphql" "psk0" 4000 {} none).caller ≠ sampleSrc ∧
    (assembleConfig sampleSrc "/graphql" "psk0" 4000 {} none).caller.frontends.map
      List.length = some 2 ∧
    sampleSrc.frontends.map List.length = some 1 ∧
    (assembleConfig sampleSrc "/graphql" "psk0" 4000 {} none).caller.origins =
      some [{ requestTimeout := none, maxConcurrentRequests := none, supportsBatch := none,
              http := some { url := "http://127.0.0.1:4000/graphql",
                             headerSecret := "psk0" } }] := by
  decide

/-- C9 (amended): construction is a pure transformation of the engine's
own copy only at the top level.  The caller's document keeps its
top-level identity (e.g. `apiKey`), and is unchanged when it supplied no
`frontends`, `origins` or `logging`; but a caller-supplied frontends
array gains the synthetic frontend, caller-supplied HTTP origins have
their `headerSecret` overwritten with the psk, and a caller-supplied
logging block has `format`/`destination` forced to `JSON`/`STDOUT`,
because those nested structures stay shared with the engine's copy. -/
theorem C9_construction_mutation (source : EngineConfig) (endpoint psk : String)
    (graphqlPort : Nat) (op : OriginParams) (fe : Option ExtensionsConfig) :
    (assembleConfig source endpoint psk graphqlPort op fe).caller.apiKey = source.apiKey ∧
    (source.frontends = none → source.origins = none → source.logging = none →
      (assembleConfig source endpoint psk graphqlPort op fe).caller = source) ∧
    (∀ fs, source.frontends = some fs →
      (assembleConfig source endpoint psk graphqlPort op fe).caller.frontends =
        some (fs ++ [mkFrontend endpoint fe])) ∧
    (∀ os, source.origins = some os →
      (assembleConfig source endpoint psk graphqlPort op fe).caller.origins =
        some (os.map (setOriginSecret psk))) ∧
    (∀ lg, source.logging = some lg →
      (assembleConfig source endpoint psk graphqlPort op fe).caller.logging =
        some { lg with format := some "JSON", destination := some "STDOUT" }) := by
  refine ⟨?_, ?_, ?_, ?_, ?_⟩
  · cases hf : source.frontends <;> cases ho : source.origins <;>
      cases hl : source.logging <;> simp [assembleConfig, hf, ho, hl]
  · intro h1 h2 h3
    cases source with
    | mk a o f l =>
      simp only at h1 h2 h3
      subst h1; subst h2; subst h3
      simp [assembleConfig]
  · intro fs h
    cases ho : source.origins <;> cases hl : source.logging <;>
      simp [assembleConfig, h, ho, hl]
  · intro os h
    cases hf : source.frontends <;> cases hl : source.logging <;>
      simp [assembleConfig, h, hf, hl]
  · intro lg h
    cases hf : source.frontends <;> cases ho : source.origins <;>
      simp [assembleConfig, h, hf, ho]

/-- C9, witness for the amended theorem at `sampleSrc` and at a document
with none of the three optional blocks. -/
theorem C9_construction_mutation_witness :
    (assembleConfig { apiKey := "k" } "/g" "p" 1 {} none).caller = { apiKey := "k" } ∧
    (assembleConfig sampleSrc "/g" "p" 1 {} none).caller.origins =
      some (sampleOrigins.map (setOriginSecret "p")) :=
  ⟨(C9_construction_mutation { apiKey := "k" } "/g" "p" 1 {} none).2.1 rfl rfl rfl,
   (C9_construction_mutation sampleSrc "/g" "p" 1 {} none).2.2.2.1 sampleOrigins rfl⟩

/-- Preservation of the uri/liveness invariant by any feasible supervisor
step. -/
theorem uriInv_step (s : EngineSt) (e : Ev) (hv : evValid s e)
    (h1 : s.live = [] → s.uri = "")
    (h2 : s.uri ≠ "" → ∃ g, g ∈ s.live ∧ g ∈ s.ready) :
    ((step e s).live = [] → (step e s).uri = "") ∧
    ((step e s).uri ≠ "" → ∃ g, g ∈ (step e s).live ∧ g ∈ (step e s).ready) := by
  cases e with
  | startCall =>
    by_cases hr : s.running
    · simp only [step, startFn, hr, if_true]
      exact ⟨h1, h2⟩
    · simp only [step, startFn, hr, if_false]
      constructor
      · intro h
        simp at h
      · intro h
        obtain ⟨g, hg1, hg2⟩ := h2 h
        exact ⟨g, List.mem_cons_of_mem _ hg1, hg2⟩
  | readiness g address =>
    have hmem : g ∈ s.live := hv
    have hne : s.live ≠ [] := List.ne_nil_of_mem hmem
    cases hp : s.promise <;>
      simp only [step, hp] <;>
      exact ⟨fun h => absurd h hne, fun _ => ⟨g, hmem, List.mem_cons_self _ _⟩⟩
  | logOther g =>
    exact ⟨h1, h2⟩
  | childExit g code signal =>
    by_cases hr : s.running = false
    · simp [step, hr]
    · by_cases hc : code = some 78 <;> simp [step, hr, hc]
  | timeoutFire =>
    by_cases ha : s.timeoutArmed
    · cases hp : s.promise <;> simp only [step, ha, hp, if_true] <;> exact ⟨h1, h2⟩
    · simp only [step, ha, if_false]
      exact ⟨h1, h2⟩
  | stopCall =>
    cases hc : s.childField <;> simp only [step, stopFn, hc] <;> exact ⟨h1, h2⟩

/-- C3: at every reachable supervisor state, if no child process is alive
then `middlewareParams.uri` is empty; and whenever `uri` is non-empty it
names a child that is still alive and has emitted the readiness record
(so `uri` is non-empty only between a readiness record and that child's
exit). -/
theorem C3_uri_empty_invariant (s : EngineSt) (hs : Reachable s) :
    (s.live = [] → s.uri = "") ∧
    (s.uri ≠ "" → ∃ g, g ∈ s.live ∧ g ∈ s.ready) := by
  induction hs with
  | init => exact ⟨fun _ => rfl, fun h => absurd rfl h⟩
  | next hr hv ih => exact uriInv_step _ _ hv ih.1 ih.2

/-- C3, witness at the reachable state reached by one `start()` call. -/
theorem C3_uri_empty_invariant_witness :
    ((step .startCall engineInit).live = [] → (step .startCall engineInit).uri = "") ∧
    ((step .startCall engineInit).uri ≠ "" →
      ∃ g, g ∈ (step .startCall engineInit).live ∧ g ∈ (step .startCall engineInit).ready) :=
  C3_uri_empty_invariant _ (Reachable.next Reachable.init True.intro)

/-- C4: while the `start()` promise is pending, a readiness record with
address `127.0.0.1:54321` sets `uri` to `http://127.0.0.1:54321` and
resolves the promise with the parsed port `54321`; a readiness record
whose address carries no parsable port rejects the promise with the
`unknown url` outcome instead of resolving it, and this is not treated as
a crash: no error event is emitted, no process is spawned or torn down. -/
theorem C4_readiness_resolves (s : EngineSt) (g : Nat) (h : s.promise = none) :
    ((step (.readiness g "127.0.0.1:54321") s).uri = "http://127.0.0.1:54321" ∧
     (step (.readiness g "127.0.0.1:54321") s).promise = some (.port 54321)) ∧
    ((step (.readiness g "127.0.0.1") s).uri = "http://127.0.0.1" ∧
     (step (.readiness g "127.0.0.1") s).promise = some .unknownUrl ∧
     (step (.readiness g "127.0.0.1") s).errorEvents = s.errorEvents ∧
     (step (.readiness g "127.0.0.1") s).nextId = s.nextId ∧
     (step (.readiness g "127.0.0.1") s).live = s.live) := by
  have hgood : urlPort "http://127.0.0.1:54321" = some 54321 := by decide
  have hbad : urlPort "http://127.0.0.1" = none := by decide
  have happ1 : "http://" ++ "127.0.0.1:54321" = "http://127.0.0.1:54321" := by decide
  have happ2 : "http://" ++ "127.0.0.1" = "http://127.0.0.1" := by decide
  simp [step, h, hgood, hbad, happ1, happ2]

/-- C4, witness at the fresh supervisor state. -/
theorem C4_readiness_resolves_witness :
    ((step (.readiness 0 "127.0.0.1:54321") engineInit).uri = "http://127.0.0.1:54321" ∧
     (step (.readiness 0 "127.0.0.1:54321") engineInit).promise = some (.port 54321)) ∧
    ((step (.readiness 0 "127.0.0.1") engineInit).uri = "http://127.0.0.1" ∧
     (step (.readiness 0 "127.0.0.1") engineInit).promise = some .unknownUrl ∧
     (step (.readiness 0 "127.0.0.1") engineInit).errorEvents = engineInit.errorEvents ∧
     (step (.readiness 0 "127.0.0.1") engineInit).nextId = engineInit.nextId ∧
     (step (.readiness 0 "127.0.0.1") engineInit).live = engineInit.live) :=
  C4_readiness_resolves engineInit 0 rfl

/-- Emitting the readiness record clears the startup timer. -/
theorem readiness_disarms (s : EngineSt) (g : Nat) (address : String) :
    (step (.readiness g address) s).timeoutArmed = false := by
  cases hp : s.promise <;> simp [step, hp]

/-- A disarmed startup timer firing changes nothing. -/
theorem timeout_noop (s : EngineSt) (h : s.timeoutArmed = false) :
    step .timeoutFire s = s := by
  simp [step, h]

/-- C5: with no readiness record, the startup timer firing rejects the
`start()` promise with the timeout outcome, clears `running`, sends
`SIGKILL` to the still-starting child and drops `this.child`; after the
killed child's exit event no process is alive and none is respawned.
Moreover only the first of readiness and timeout has effect: after a
readiness record the timer is disarmed and its firing is a no-op, and a
readiness record arriving after the promise has settled leaves the
settled promise unchanged. -/
theorem C5_startup_timeout :
    ((step .timeoutFire (step .startCall engineInit)).promise = some .timedOut ∧
     (step .timeoutFire (step .startCall engineInit)).running = false ∧
     (step .timeoutFire (step .startCall engineInit)).childField = .null ∧
     (step .timeoutFire (step .startCall engineInit)).kills = [(0, "SIGKILL")] ∧
     (step (.childExit 0 none (some "SIGKILL"))
       (step .timeoutFire (step .startCall engineInit))).live = [] ∧
     (step (.childExit 0 none (some "SIGKILL"))
       (step .timeoutFire (step .startCall engineInit))).nextId =
       (step .timeoutFire (step .startCall engineInit)).nextId ∧
     (step (.childExit 0 none (some "SIGKILL"))
       (step .timeoutFire (step .startCall engineInit))).errorEvents = 0) ∧
    (∀ (s : EngineSt) (g : Nat) (address : String),
      step .timeoutFire (step (.readiness g address) s) = step (.readiness g address) s) ∧
    (∀ (s : EngineSt) (g : Nat) (address : String) (r : StartOutcome),
      (step (.readiness g address) { s with promise := some r }).promise = some r) := by
  refine ⟨by decide, ?_, ?_⟩
  · intro s g address
    exact timeout_noop _ (readiness_disarms s g address)
  · intro s g address r
    simp [step]

/-- C6: on a child exit event while `running` is true, exit code 78 emits
exactly one error event and spawns no replacement, while any other exit
(code ≠ 78, including exits by signal where the code is null) spawns
exactly one replacement process and leaves `uri` empty in the gap; while
`running` is false the exit neither emits an error event nor spawns. -/
theorem C6_exit_handling (s : EngineSt) (g : Nat) (code : Option Int)
    (signal : Option String) :
    (s.running = true → code = some 78 →
      (step (.childExit g code signal) s).errorEvents = s.errorEvents + 1 ∧
      (step (.childExit g code signal) s).nextId = s.nextId) ∧
    (s.running = true → code ≠ some 78 →
      (step (.childExit g code signal) s).nextId = s.nextId + 1 ∧
      (step (.childExit g code signal) s).childField = .proc s.nextId ∧
      (step (.childExit g code signal) s).live = s.nextId :: s.live.erase g ∧
      (step (.childExit g code signal) s).uri = "") ∧
    (s.running = false →
      (step (.childExit g code signal) s).errorEvents = s.errorEvents ∧
      (step (.childExit g code signal) s).nextId = s.nextId) := by
  refine ⟨?_, ?_, ?_⟩
  · intro hr hc
    simp [step, hr, hc]
  · intro hr hc
    simp [step, hr, hc]
  · intro hr
    simp [step, hr]

/-- C6, witness: a 78 exit and a code-1 exit at the running sample state,
and a code-1 exit at the fresh (not running) state. -/
theorem C6_exit_handling_witness :
    ((step (.childExit 0 (some 78) none) sRunning).errorEvents = sRunning.errorEvents + 1 ∧
     (step (.childExit 0 (some 78) none) sRunning).nextId = sRunning.nextId) ∧
    ((step (.childExit 0 (some 1) none) sRunning).nextId = sRunning.nextId + 1 ∧
     (step (.childExit 0 (some 1) none) sRunning).childField = .proc sRunning.nextId ∧
     (step (.childExit 0 (some 1) none) sRunning).live =
       sRunning.nextId :: sRunning.live.erase 0 ∧
     (step (.childExit 0 (some 1) none) sRunning).uri = "") ∧
    ((step (.childExit 0 (some 1) none) engineInit).errorEvents = engineInit.errorEvents ∧
     (step (.childExit 0 (some 1) none) engineInit).nextId = engineInit.nextId) :=
  ⟨(C6_exit_handling sRunning 0 (some 78) none).1 rfl rfl,
   (C6_exit_handling sRunning 0 (some 1) none).2.1 rfl (by decide),
   (C6_exit_handling engineInit 0 (some 1) none).2.2 rfl⟩

/-- C8, counterexample.  On a never-started engine `this.child` is
`undefined` (the constructor never assigns it), and `undefined === null`
is false, so the guard at source line 365 does not fire: `stop()` does
not throw `'No engine instance running...'`.  Instead it mutates state
(`this.child = null`, `this.running = false`) and its returned promise
rejects with a TypeError when the executor calls
`childRef.on('exit', ...)` on `undefined`.  At `engineInit` the call
takes the TypeError path, not the not-running throw, and leaves the
state changed (`childField` moves from `undefined` to `null`). -/
theorem C8_stop_counterexample :
    stopFn engineInit ≠ .throwNotRunning ∧
    stopFn engineInit = .rejectTypeError { engineInit with childField := .null } ∧
    step .stopCall engineInit ≠ engineInit ∧
    (step .stopCall engineInit).kills = [] := by
  decide

/-- C8 (amended): `stop()` with `this.child === null` (after a startup
timeout or a previous `stop()`) throws the not-running error and changes
nothing; `stop()` on a never-started engine (`this.child` undefined)
skips that guard, sets `this.child = null` and `running = false`, sends
no signal, and its returned promise rejects with a TypeError; `stop()`
with a running child clears `running` and `this.child`, sends the
default termination signal, and its promise is still unresolved right
after the call but resolved once that child's exit event arrives, after
which no process is alive and none is respawned. -/
theorem C8_stop_contract (s t u : EngineSt) (g : Nat)
    (hu : u.childField = .undef) (ht : t.childField = .null)
    (hc : s.childField = .proc g) (hl : s.live = [g]) :
    (stopFn t = .throwNotRunning ∧ step .stopCall t = t) ∧
    (stopFn u = .rejectTypeError { u with childField := .null, running := false } ∧
     (step .stopCall u).childField = .null ∧
     (step .stopCall u).running = false ∧
     (step .stopCall u).kills = u.kills) ∧
    ((step .stopCall s).running = false ∧
     (step .stopCall s).childField = .null ∧
     (step .stopCall s).kills = s.kills ++ [(g, "SIGTERM")] ∧
     (step .stopCall s).stopResolved = false ∧
     (step (.childExit g none (some "SIGTERM")) (step .stopCall s)).stopResolved = true ∧
     (step (.childExit g none (some "SIGTERM")) (step .stopCall s)).live = [] ∧
     (step (.childExit g none (some "SIGTERM")) (step .stopCall s)).nextId = s.nextId) := by
  refine ⟨⟨by simp [stopFn, ht], by simp [step, stopFn, ht]⟩,
          ⟨by simp [stopFn, hu], by simp [step, stopFn, hu], by simp [step, stopFn, hu],
           by simp [step, stopFn, hu]⟩, ?_⟩
  simp [step, stopFn, hc, hl]

/-- C8, witness: the null-child state (as left by a startup timeout), the
never-started state, and the running sample state. -/
theorem C8_stop_contract_witness :
    (stopFn { engineInit with childField := .null } = .throwNotRunning ∧
     step .stopCall { engineInit with childField := .null } =
       { engineInit with childField := .null }) ∧
    (stopFn engineInit =
       .rejectTypeError { engineInit with childField := .null, running := false } ∧
     (step .stopCall engineInit).childField = .null ∧
     (step .stopCall engineInit).running = false ∧
     (step .stopCall engineInit).kills = engineInit.kills) ∧
    ((step .stopCall sRunning).running = false ∧
     (step .stopCall sRunning).childField = .null ∧
     (step .stopCall sRunning).kills = sRunning.kills ++ [(0, "SIGTERM")] ∧
     (step .stopCall sRunning).stopResolved = false ∧
     (step (.childExit 0 none (some "SIGTERM")) (step .stopCall sRunning)).stopResolved = true ∧
     (step (.childExit 0 none (some "SIGTERM")) (step .stopCall sRunning)).live = [] ∧
     (step (.childExit 0 none (some "SIGTERM")) (step .stopCall sRunning)).nextId =
       sRunning.nextId) :=
  C8_stop_contract sRunning { engineInit with childField := .null } engineInit 0 rfl rfl rfl rfl

/-- C10: a second `start()` while `running` is still set throws
synchronously with the fixed message, spawns no process and leaves the
supervisor state unchanged. -/
theorem C10_double_start (s : EngineSt) (h : s.running = true) :
    startFn s = .error "Only call start() on an engine object once" ∧
    step .startCall s = s := by
  simp [startFn, step, h]

/-- C10, witness at the running sample state. -/
theorem C10_double_start_witness :
    startFn sRunning = .error "Only call start() on an engine object once" ∧
    step .startCall sRunning = sRunning :=
  C10_double_start sRunning rfl

end ApolloEngine
